import Mathlib

/-!
# mylg `packet`: a wrapper for GoPacket

A shallow embedding of `src/packet/packet.go`:

* the record `packet.Packet` and `NewPacket`;
* `GetPacketInfo`, the per-packet field extractor;
* `PrintPretty` / `PrintIPv4`, the printers;
* the worker goroutine of `Open`, as a function of the results the capture
  library and the scheduler hand to it.

The capture library (gopacket, gopacket/layers, pcap), `net` and `log` are
outside the repository.  Their data is modelled by plain structures, their
effects by explicit arguments (`Env`, the list of loop events) and by an
explicit trace of effects (`Effect`).
-/

/-- A Go `[]byte`; a Go `string` is the same sequence of bytes. -/
abbrev Bytes := List (Fin 256)

/-! ## gopacket/layers: the decoded layer structures -/

namespace layers

/-- The type `layers.EthernetType` (a `uint16`). -/
abbrev EthernetType := Nat

/-- The constant `layers.EthernetTypeIPv4`. -/
def EthernetTypeIPv4 : EthernetType := 0x0800
/-- The constant `layers.EthernetTypeARP`. -/
def EthernetTypeARP : EthernetType := 0x0806
/-- The constant `layers.EthernetTypeIPv6`. -/
def EthernetTypeIPv6 : EthernetType := 0x86DD

/-- The type `layers.IPProtocol` (a `uint8`). -/
abbrev IPProtocol := Nat

/-- The constant `layers.IPProtocolTCP`. -/
def IPProtocolTCP : IPProtocol := 6
/-- The constant `layers.IPProtocolUDP`. -/
def IPProtocolUDP : IPProtocol := 17

/-- The struct `layers.Ethernet`. -/
structure Ethernet where
  SrcMAC : Bytes
  DstMAC : Bytes
  EthernetType : EthernetType
  Length : Nat
deriving DecidableEq, Repr

/-- The struct `layers.IPv4` (the fields the program can observe, and some more). -/
structure IPv4 where
  TTL : Nat
  Protocol : IPProtocol
  SrcIP : Bytes
  DstIP : Bytes
deriving DecidableEq, Repr

/-- The struct `layers.IPv6`. -/
structure IPv6 where
  NextHeader : IPProtocol
  HopLimit : Nat
  SrcIP : Bytes
  DstIP : Bytes
deriving DecidableEq, Repr

/-- The struct `layers.TCP`. -/
structure TCP where
  SrcPort : Nat
  DstPort : Nat
  Seq : Nat
  Ack : Nat
deriving DecidableEq, Repr

/-- The struct `layers.UDP`. -/
structure UDP where
  SrcPort : Nat
  DstPort : Nat
  Length : Nat
deriving DecidableEq, Repr

end layers

/-! ## gopacket: layer types, layers and decoded packets -/

namespace gopacket

/-- The type `gopacket.LayerType`: the five layer types the program asks for
(`layers.LayerTypeEthernet`, `layers.LayerTypeIPv4`, `layers.LayerTypeIPv6`,
`layers.LayerTypeTCP`, `layers.LayerTypeUDP`) and every other registered type. -/
inductive LayerType
  | Ethernet
  | IPv4
  | IPv6
  | TCP
  | UDP
  | Other (id : Nat)
deriving DecidableEq, Repr

/-- A value of the interface `gopacket.Layer` as the decoders of
gopacket/layers build it: the dynamic type is one of the layer structs, or
some other layer (ARP, DNS, a raw payload, a decode failure, ...). -/
inductive Layer
  | Ethernet (l : layers.Ethernet)
  | IPv4 (l : layers.IPv4)
  | IPv6 (l : layers.IPv6)
  | TCP (l : layers.TCP)
  | UDP (l : layers.UDP)
  | Other (id : Nat) (contents : Bytes) (payload : Bytes)
deriving DecidableEq, Repr

/-- The method `Layer.LayerType()`. -/
def Layer.LayerType : Layer → LayerType
  | .Ethernet _ => .Ethernet
  | .IPv4 _ => .IPv4
  | .IPv6 _ => .IPv6
  | .TCP _ => .TCP
  | .UDP _ => .UDP
  | .Other id _ _ => .Other id

/-- The type assertion `l.(*layers.Ethernet)` with its ok flag dropped:
the pointer when the dynamic type matches, nil otherwise. -/
def Layer.assertEthernet : Layer → Option layers.Ethernet
  | .Ethernet l => some l
  | _ => none

/-- The type assertion `l.(*layers.IPv4)` with its ok flag dropped. -/
def Layer.assertIPv4 : Layer → Option layers.IPv4
  | .IPv4 l => some l
  | _ => none

/-- The type assertion `l.(*layers.IPv6)` with its ok flag dropped. -/
def Layer.assertIPv6 : Layer → Option layers.IPv6
  | .IPv6 l => some l
  | _ => none

/-- The type assertion `l.(*layers.TCP)` with its ok flag dropped. -/
def Layer.assertTCP : Layer → Option layers.TCP
  | .TCP l => some l
  | _ => none

/-- The type assertion `l.(*layers.UDP)` with its ok flag dropped. -/
def Layer.assertUDP : Layer → Option layers.UDP
  | .UDP l => some l
  | _ => none

/-- A value of the interface `gopacket.ApplicationLayer`; `Payload()` is its
only method the program calls. -/
structure ApplicationLayer where
  Payload : Bytes
deriving DecidableEq, Repr

/-- A value of the interface `gopacket.ErrorLayer`: the data that failed to
decode and the decoder's error message. -/
structure ErrorLayer where
  data : Bytes
  message : String
deriving DecidableEq, Repr

/-- A decoded `gopacket.Packet`: its layers in decoding order, the
application layer the decoders recorded, and the error layer when decoding
stopped on a failure. -/
structure Packet where
  layers : List Layer
  application : Option ApplicationLayer
  failure : Option ErrorLayer
deriving DecidableEq, Repr

/-- The method `Packet.Layer(t)`: the first layer of the packet whose type is
`t`, nil when there is none. -/
def Packet.Layer (p : Packet) (t : LayerType) : Option Layer :=
  p.layers.find? (fun l => l.LayerType == t)

/-- The method `Packet.ApplicationLayer()`. -/
def Packet.ApplicationLayer (p : Packet) : Option ApplicationLayer :=
  p.application

/-- The method `Packet.ErrorLayer()`. -/
def Packet.ErrorLayer (p : Packet) : Option ErrorLayer :=
  p.failure

/-- The packet contains a layer of type `t`. -/
def Packet.hasLayer (p : Packet) (t : LayerType) : Prop :=
  ∃ l, l ∈ p.layers ∧ l.LayerType = t

instance (p : Packet) (t : LayerType) : Decidable (p.hasLayer t) := by
  unfold Packet.hasLayer
  infer_instance

end gopacket

/-! ## The environment of the program -/

/-- The two results of `net.LookupHost`: the addresses (a nil slice is
`none`) and the error (nil is `none`). -/
structure LookupResult where
  addrs : Option (List String)
  err : Option String
deriving DecidableEq, Repr

/-- What the program takes from the standard library and from gopacket
without this repository defining it: the resolver behind `net.LookupHost`,
and the `String()` renderings used when printing. -/
structure Env where
  /-- The function `net.LookupHost`. -/
  LookupHost : String → LookupResult
  /-- The method `net.IP.String()`. -/
  IPString : Bytes → String
  /-- The method `layers.IPProtocol.String()`. -/
  IPProtocolString : layers.IPProtocol → String
  /-- How `fmt.Println` renders an error layer. -/
  ErrorLayerString : gopacket.ErrorLayer → String

/-- One effect of the program on the outside: a write, or a call of the
resolver. -/
inductive Effect
  /-- A call `net.LookupHost(host)`. -/
  | lookupHost (host : String)
  /-- The builtin `println(s)`, which writes to standard error. -/
  | println (s : String)
  /-- A call `log.Printf` whose formatted message is `s`; the standard logger
  writes to standard error. -/
  | logPrintf (s : String)
  /-- A call `fmt.Println` that writes the line `s` to standard output. -/
  | fmtPrintln (s : String)
deriving DecidableEq, Repr

/-- A run-time panic of the Go program. -/
inductive Panic
  /-- A field is read through a nil pointer. -/
  | nilDereference
deriving DecidableEq, Repr

/-- Reading through a pointer: a panic when it is nil. -/
def deref {α : Type} : Option α → Except Panic α
  | some a => .ok a
  | none => .error .nilDereference

/-! ## package packet -/

namespace packet

/-- The struct `Packet`: "holds all layers information".  A nil pointer and a
nil slice are `none`; the zero string is the empty byte sequence. -/
structure Packet where
  Eth : Option layers.Ethernet := none
  IPv4 : Option layers.IPv4 := none
  IPv6 : Option layers.IPv6 := none
  TCP : Option layers.TCP := none
  UDP : Option layers.UDP := none
  SrcHost : Option (List String) := none
  DstHost : Option (List String) := none
  Payload : Bytes := []
deriving DecidableEq, Repr

/-- The function `NewPacket`: "creates an empty packet info". -/
def NewPacket : Packet := {}

/-- The function `GetPacketInfo`: "decodes layers".  The result is the record
with the effects of the call in order (the calls of the resolver, then the
message on an error layer), or the panic that stopped the call. -/
def GetPacketInfo (env : Env) (pkt : gopacket.Packet) :
    Except Panic (Packet × List Effect) := do
  let p : Packet := {}
  -- Ethernet
  let p := match pkt.Layer .Ethernet with
    | some ethernetLayer => { p with Eth := ethernetLayer.assertEthernet }
    | none => p
  -- IP Address V4
  let (p, calls) ← match pkt.Layer .IPv4 with
    | some ipLayer => do
      let p := { p with IPv4 := ipLayer.assertIPv4 }
      let src := env.IPString (← deref p.IPv4).SrcIP
      let p := { p with SrcHost := (env.LookupHost src).addrs }
      let dst := env.IPString (← deref p.IPv4).DstIP
      let p := { p with DstHost := (env.LookupHost dst).addrs }
      pure (p, [Effect.lookupHost src, Effect.lookupHost dst])
    | none =>
      -- IP Address V6
      match pkt.Layer .IPv6 with
      | some ipLayer => do
        let p := { p with IPv6 := ipLayer.assertIPv6 }
        let src := env.IPString (← deref p.IPv6).SrcIP
        let p := { p with SrcHost := (env.LookupHost src).addrs }
        let dst := env.IPString (← deref p.IPv6).DstIP
        let p := { p with DstHost := (env.LookupHost dst).addrs }
        pure (p, [Effect.lookupHost src, Effect.lookupHost dst])
      | none => pure (p, [])
  -- TCP
  let p := match pkt.Layer .TCP with
    | some tcpLayer => { p with TCP := tcpLayer.assertTCP }
    | none =>
      -- UDP
      match pkt.Layer .UDP with
      | some udpLayer => { p with UDP := udpLayer.assertUDP }
      | none => p
  -- Application
  let p := match pkt.ApplicationLayer with
    | some applicationLayer => { p with Payload := applicationLayer.Payload }
    | none => p
  -- Check for errors
  let printed := match pkt.ErrorLayer with
    | some err =>
      [Effect.fmtPrintln
        ("Error decoding some part of the packet: " ++ env.ErrorLayerString err)]
    | none => []
  return (p, calls ++ printed)

/-- What a printing method did: its writes in order, and the panic that cut
it short, if there was one. -/
structure Printed where
  out : List Effect
  panic : Option Panic
deriving DecidableEq, Repr

/-- The message of the two `log.Printf` calls of `PrintIPv4`, format
`"IP %s > %s , %s length: %d\n"`. -/
def Packet.ipv4Line (env : Env) (ipv4 : layers.IPv4) (payload : Bytes) : String :=
  "IP " ++ env.IPString ipv4.SrcIP ++ " > " ++ env.IPString ipv4.DstIP ++ " , " ++
    env.IPProtocolString ipv4.Protocol ++ " length: " ++ toString payload.length ++ "\n"

/-- The method `PrintIPv4`: "prints IPv4 packets".  The first case expression
already reads `p.IPv4.Protocol`. -/
def Packet.PrintIPv4 (p : Packet) (env : Env) : Printed :=
  match deref p.IPv4 with
  | .error e => { out := [], panic := some e }
  | .ok ipv4 =>
    if ipv4.Protocol = layers.IPProtocolTCP then
      { out := [Effect.logPrintf (Packet.ipv4Line env ipv4 p.Payload)], panic := none }
    else if ipv4.Protocol = layers.IPProtocolUDP then
      { out := [Effect.logPrintf (Packet.ipv4Line env ipv4 p.Payload)], panic := none }
    else
      { out := [], panic := none }

/-- The method `PrintPretty`: "prints out the captured data to the stdout".
The switch reads `p.Eth.EthernetType`. -/
def Packet.PrintPretty (p : Packet) (env : Env) : Printed :=
  match deref p.Eth with
  | .error e => { out := [], panic := some e }
  | .ok eth =>
    if eth.EthernetType = layers.EthernetTypeIPv4 then
      p.PrintIPv4 env
    else if eth.EthernetType = layers.EthernetTypeIPv6 then
      let r := p.PrintIPv4 env
      { out := Effect.println "IPV6" :: r.out, panic := r.panic }
    else if eth.EthernetType = layers.EthernetTypeARP then
      { out := [Effect.println "ARP"], panic := none }
    else
      { out := [Effect.println "unknown"], panic := none }

/-! ### `Open`: the capture loop

The goroutine started by `Open` is run against the results its environment
gives it: the result of `pcap.OpenLive`, the result of `SetBPFFilter`, and for
every turn of the loop the result of `NextPacket` and, after a good read, the
case of the `select` that proceeds. -/

/-- The case of the `select` statement that proceeds. -/
inductive Select
  /-- The case `<-s`: a signal is taken from the signal channel. -/
  | signal
  /-- The case `c <- GetPacketInfo(packet)`: the record is sent. -/
  | send
deriving DecidableEq, Repr

/-- What one turn of the loop meets. -/
inductive Turn
  /-- The call `NextPacket` returns an error. -/
  | readError (err : String)
  /-- The call `NextPacket` returns a packet, and then `sel` proceeds. -/
  | packet (pkt : gopacket.Packet) (sel : Select)
deriving DecidableEq, Repr

/-- The turn is a good read after which the signal is taken. -/
def Turn.takesSignal : Turn → Bool
  | .packet _ .signal => true
  | _ => false

/-- The state of the goroutine of `Open` and of what it acts on. -/
structure Worker where
  /-- The variable `loop`. -/
  loop : Bool := true
  /-- How many times `NextPacket` has been called. -/
  reads : Nat := 0
  /-- The records sent on the channel `c`, oldest first. -/
  c : List Packet := []
  /-- The call `close(c)` has run. -/
  cClosed : Bool := false
  /-- The call `close(s)` has run. -/
  sClosed : Bool := false
  /-- The call `handle.Close()` has run. -/
  handleClosed : Bool := false
  /-- The call `signal.Stop(s)` has run. -/
  stopped : Bool := false
  /-- The effects of the calls of `GetPacketInfo`. -/
  out : List Effect := []
  /-- The error given to `log.Fatal`, which ends the process. -/
  fatal : Option String := none
  /-- The panic that ended the goroutine. -/
  panic : Option Panic := none
deriving DecidableEq, Repr

/-- Two states of the worker that differ at most in the count of reads. -/
def Worker.agree (a b : Worker) : Prop :=
  a.loop = b.loop ∧ a.c = b.c ∧ a.cClosed = b.cClosed ∧ a.sClosed = b.sClosed ∧
    a.handleClosed = b.handleClosed ∧ a.stopped = b.stopped ∧ a.out = b.out ∧
    a.fatal = b.fatal ∧ a.panic = b.panic

/-- The body of the loop `for loop { ... }`, run once.  The operand
`GetPacketInfo(packet)` of the send case is evaluated when the `select` is
entered, whichever case proceeds. -/
def Packet.Open.body (env : Env) (w : Worker) : Turn → Worker
  | .readError _ => { w with reads := w.reads + 1 }
  | .packet pkt sel =>
    let w := { w with reads := w.reads + 1 }
    match GetPacketInfo env pkt with
    | .error e => { w with panic := some e }
    | .ok (info, out) =>
      let w := { w with out := w.out ++ out }
      match sel with
      | .signal => { w with loop := false, stopped := true }
      | .send => { w with c := w.c ++ [info] }

/-- The loop `for loop { ... }` over the turns the environment provides: it
stops when `loop` is false or on a panic; when the turns run out it is still
waiting in the loop. -/
def Packet.Open.run (env : Env) : Worker → List Turn → Worker
  | w, [] => w
  | w, t :: ts =>
    if w.loop then
      let w1 := Packet.Open.body env w t
      if w1.panic.isSome then w1 else Packet.Open.run env w1 ts
    else w

/-- The goroutine of the method `Open` (the receiver is not used by it).
`openLive` and `setBPFFilter` are the errors returned by `pcap.OpenLive` and
`handle.SetBPFFilter`, `none` for nil.  The three deferred calls run when the
loop is left. -/
def Packet.Open (_p : Packet) (env : Env) (openLive setBPFFilter : Option String)
    (turns : List Turn) : Worker :=
  let w : Worker := {}
  match openLive with
  | some err => { w with fatal := some err }
  | none =>
    match setBPFFilter with
    | some err => { w with fatal := some err }
    | none =>
      let w := Packet.Open.run env w turns
      if w.loop && w.panic.isNone then w
      else { w with cClosed := true, sClosed := true, handleClosed := true }

/-- The packets `NextPacket` returns over the turns, in order: the packets
read, when the loop reaches every turn. -/
def Packet.Open.readPackets : List Turn → List gopacket.Packet
  | [] => []
  | .readError _ :: ts => Packet.Open.readPackets ts
  | .packet pkt _ :: ts => pkt :: Packet.Open.readPackets ts

end packet

/-! ## Sample data -/

namespace sample

/-- A sample environment: the resolver answers a name with itself, as
`net.LookupHost` does for an address literal, and fails on the empty name;
an address is rendered as its bytes in decimal joined by dots, which is what
`net.IP.String()` gives for four bytes. -/
def env : Env where
  LookupHost := fun h => if h = "" then ⟨none, some "no such host"⟩ else ⟨some [h], none⟩
  IPString := fun b => String.intercalate "." (b.map fun x => toString x.val)
  IPProtocolString := fun n => if n = 6 then "TCP" else if n = 17 then "UDP" else toString n
  ErrorLayerString := fun e => e.message

/-- The sample environment with a resolver that fails on every name and
returns no addresses. -/
def failingEnv : Env :=
  { env with LookupHost := fun _ => ⟨none, some "no such host"⟩ }

/-- The sample environment with a resolver that returns an address together
with an error, as the two results of `net.LookupHost` allow. -/
def leakyEnv : Env :=
  { env with LookupHost := fun h => ⟨some [h], some "server misbehaving"⟩ }

/-- An Ethernet header announcing IPv4. -/
def eth4 : layers.Ethernet :=
  { SrcMAC := [0, 1, 2, 3, 4, 5], DstMAC := [6, 7, 8, 9, 10, 11],
    EthernetType := layers.EthernetTypeIPv4, Length := 0 }

/-- An Ethernet header announcing IPv6. -/
def eth6 : layers.Ethernet := { eth4 with EthernetType := layers.EthernetTypeIPv6 }

/-- An IPv4 header carrying TCP. -/
def ip4 : layers.IPv4 :=
  { TTL := 64, Protocol := layers.IPProtocolTCP, SrcIP := [10, 0, 0, 1], DstIP := [10, 0, 0, 2] }

/-- An IPv6 header carrying TCP. -/
def ip6 : layers.IPv6 :=
  { NextHeader := layers.IPProtocolTCP, HopLimit := 64,
    SrcIP := [32, 1, 13, 184, 0, 0, 0, 0, 0, 0, 0, 0, 0, 0, 0, 1],
    DstIP := [32, 1, 13, 184, 0, 0, 0, 0, 0, 0, 0, 0, 0, 0, 0, 2] }

/-- A TCP header. -/
def tcp : layers.TCP := { SrcPort := 49152, DstPort := 80, Seq := 1, Ack := 0 }

/-- A UDP header. -/
def udp : layers.UDP := { SrcPort := 49152, DstPort := 53, Length := 11 }

/-- An ordinary TCP segment over IPv4 over Ethernet with three bytes of payload. -/
def tcp4Packet : gopacket.Packet :=
  { layers := [.Ethernet eth4, .IPv4 ip4, .TCP tcp, .Other 2 [] [104, 105, 10]],
    application := some ⟨[104, 105, 10]⟩, failure := none }

/-- An ordinary TCP segment over IPv6 over Ethernet. -/
def tcp6Packet : gopacket.Packet :=
  { layers := [.Ethernet eth6, .IPv6 ip6, .TCP tcp], application := none, failure := none }

/-- An IPv6 datagram tunnelled in IPv4 (protocol 41), carrying UDP. -/
def tunnelPacket : gopacket.Packet :=
  { layers := [.Ethernet eth4, .IPv4 { ip4 with Protocol := 41 },
      .IPv6 { ip6 with NextHeader := layers.IPProtocolUDP }, .UDP udp],
    application := none, failure := none }

/-- A frame decoded to a single layer the program does not look for. -/
def barePacket : gopacket.Packet :=
  { layers := [.Other 10 [0, 1, 8, 0] []], application := none, failure := none }

/-- A VXLAN frame: Ethernet, IPv4 and UDP outside, then the encapsulated
Ethernet frame with IPv6 and TCP. -/
def vxlanPacket : gopacket.Packet :=
  { layers := [.Ethernet eth4, .IPv4 { ip4 with Protocol := layers.IPProtocolUDP },
      .UDP { udp with DstPort := 4789 }, .Other 119 [8, 0, 0, 0, 0, 0, 42, 0] [],
      .Ethernet eth6, .IPv6 ip6, .TCP tcp],
    application := none, failure := none }

/-- The packet `tcp4Packet` when the decoder failed after the TCP header: a
decode-failure layer replaces the payload and the error layer is set. -/
def brokenPacket : gopacket.Packet :=
  { layers := [.Ethernet eth4, .IPv4 ip4, .TCP tcp, .Other 1 [104, 105, 10] []],
    application := some ⟨[104, 105, 10]⟩,
    failure := some ⟨[104, 105, 10], "truncated"⟩ }

end sample

/-! ## Lemmas on the packet accessors -/

namespace gopacket

/-- What `Layer(t)` returns is a layer of the packet, of type `t`. -/
theorem Packet.Layer_some {p : Packet} {t : LayerType} {l : gopacket.Layer}
    (h : p.Layer t = some l) : l ∈ p.layers ∧ l.LayerType = t := by
  unfold Packet.Layer at h
  have h1 := List.find?_some h
  have h2 := List.mem_of_find?_eq_some h
  exact ⟨h2, by simpa using h1⟩

/-- The accessor `Layer(t)` returns nil exactly when the packet has no layer
of type `t`. -/
theorem Packet.Layer_eq_none {p : Packet} {t : LayerType} :
    p.Layer t = none ↔ ¬ p.hasLayer t := by
  unfold Packet.Layer Packet.hasLayer
  simp

/-- The accessor `Layer(t)` returns a layer exactly when the packet has one of
type `t`. -/
theorem Packet.Layer_isSome {p : Packet} {t : LayerType} :
    (p.Layer t).isSome ↔ p.hasLayer t := by
  rw [← not_iff_not, ← Packet.Layer_eq_none]
  cases p.Layer t <;> simp

/-- A layer whose type is Ethernet is a `*layers.Ethernet`. -/
theorem Layer.eq_Ethernet {l : gopacket.Layer} (h : l.LayerType = .Ethernet) :
    ∃ e, l = .Ethernet e := by
  cases l <;> simp [Layer.LayerType] at h
  exact ⟨_, rfl⟩

/-- A layer whose type is IPv4 is a `*layers.IPv4`. -/
theorem Layer.eq_IPv4 {l : gopacket.Layer} (h : l.LayerType = .IPv4) :
    ∃ e, l = .IPv4 e := by
  cases l <;> simp [Layer.LayerType] at h
  exact ⟨_, rfl⟩

/-- A layer whose type is IPv6 is a `*layers.IPv6`. -/
theorem Layer.eq_IPv6 {l : gopacket.Layer} (h : l.LayerType = .IPv6) :
    ∃ e, l = .IPv6 e := by
  cases l <;> simp [Layer.LayerType] at h
  exact ⟨_, rfl⟩

/-- A layer whose type is TCP is a `*layers.TCP`. -/
theorem Layer.eq_TCP {l : gopacket.Layer} (h : l.LayerType = .TCP) :
    ∃ e, l = .TCP e := by
  cases l <;> simp [Layer.LayerType] at h
  exact ⟨_, rfl⟩

/-- A layer whose type is UDP is a `*layers.UDP`. -/
theorem Layer.eq_UDP {l : gopacket.Layer} (h : l.LayerType = .UDP) :
    ∃ e, l = .UDP e := by
  cases l <;> simp [Layer.LayerType] at h
  exact ⟨_, rfl⟩

/-- The Ethernet field: the assertion on the first Ethernet layer. -/
theorem Packet.assertEthernet_Layer (p : Packet) :
    (((p.Layer .Ethernet).bind Layer.assertEthernet).isSome ↔ p.hasLayer .Ethernet) ∧
    ∀ e, (p.Layer .Ethernet).bind Layer.assertEthernet = some e ↔
      p.Layer .Ethernet = some (.Ethernet e) := by
  rw [← Packet.Layer_isSome]
  rcases h : p.Layer .Ethernet with _ | l
  · simp
  · obtain ⟨e, rfl⟩ := Layer.eq_Ethernet (Packet.Layer_some h).2
    simp [Layer.assertEthernet]

/-- The IPv4 field: the assertion on the first IPv4 layer. -/
theorem Packet.assertIPv4_Layer (p : Packet) :
    (((p.Layer .IPv4).bind Layer.assertIPv4).isSome ↔ p.hasLayer .IPv4) ∧
    ∀ e, (p.Layer .IPv4).bind Layer.assertIPv4 = some e ↔
      p.Layer .IPv4 = some (.IPv4 e) := by
  rw [← Packet.Layer_isSome]
  rcases h : p.Layer .IPv4 with _ | l
  · simp
  · obtain ⟨e, rfl⟩ := Layer.eq_IPv4 (Packet.Layer_some h).2
    simp [Layer.assertIPv4]

/-- The IPv6 field: the assertion on the first IPv6 layer. -/
theorem Packet.assertIPv6_Layer (p : Packet) :
    (((p.Layer .IPv6).bind Layer.assertIPv6).isSome ↔ p.hasLayer .IPv6) ∧
    ∀ e, (p.Layer .IPv6).bind Layer.assertIPv6 = some e ↔
      p.Layer .IPv6 = some (.IPv6 e) := by
  rw [← Packet.Layer_isSome]
  rcases h : p.Layer .IPv6 with _ | l
  · simp
  · obtain ⟨e, rfl⟩ := Layer.eq_IPv6 (Packet.Layer_some h).2
    simp [Layer.assertIPv6]

/-- The TCP field: the assertion on the first TCP layer. -/
theorem Packet.assertTCP_Layer (p : Packet) :
    (((p.Layer .TCP).bind Layer.assertTCP).isSome ↔ p.hasLayer .TCP) ∧
    ∀ e, (p.Layer .TCP).bind Layer.assertTCP = some e ↔
      p.Layer .TCP = some (.TCP e) := by
  rw [← Packet.Layer_isSome]
  rcases h : p.Layer .TCP with _ | l
  · simp
  · obtain ⟨e, rfl⟩ := Layer.eq_TCP (Packet.Layer_some h).2
    simp [Layer.assertTCP]

/-- The UDP field: the assertion on the first UDP layer. -/
theorem Packet.assertUDP_Layer (p : Packet) :
    (((p.Layer .UDP).bind Layer.assertUDP).isSome ↔ p.hasLayer .UDP) ∧
    ∀ e, (p.Layer .UDP).bind Layer.assertUDP = some e ↔
      p.Layer .UDP = some (.UDP e) := by
  rw [← Packet.Layer_isSome]
  rcases h : p.Layer .UDP with _ | l
  · simp
  · obtain ⟨e, rfl⟩ := Layer.eq_UDP (Packet.Layer_some h).2
    simp [Layer.assertUDP]

end gopacket

namespace packet

open gopacket

/-- The record `GetPacketInfo` returns, field by field, in terms of what the
accessors of the packet return; the call never panics. -/
theorem GetPacketInfo_fields (env : Env) (pkt : gopacket.Packet) :
    ∃ r : Packet,
      GetPacketInfo env pkt = .ok (r,
        (match pkt.Layer .IPv4, pkt.Layer .IPv6 with
          | some (.IPv4 ip), _ =>
            [Effect.lookupHost (env.IPString ip.SrcIP), Effect.lookupHost (env.IPString ip.DstIP)]
          | none, some (.IPv6 ip) =>
            [Effect.lookupHost (env.IPString ip.SrcIP), Effect.lookupHost (env.IPString ip.DstIP)]
          | _, _ => []) ++
        (match pkt.ErrorLayer with
          | some err =>
            [Effect.fmtPrintln
              ("Error decoding some part of the packet: " ++ env.ErrorLayerString err)]
          | none => [])) ∧
      r.Eth = (pkt.Layer .Ethernet).bind Layer.assertEthernet ∧
      r.IPv4 = (pkt.Layer .IPv4).bind Layer.assertIPv4 ∧
      r.IPv6 = (if (pkt.Layer .IPv4).isSome then none
        else (pkt.Layer .IPv6).bind Layer.assertIPv6) ∧
      r.TCP = (pkt.Layer .TCP).bind Layer.assertTCP ∧
      r.UDP = (if (pkt.Layer .TCP).isSome then none
        else (pkt.Layer .UDP).bind Layer.assertUDP) ∧
      r.SrcHost = (match pkt.Layer .IPv4, pkt.Layer .IPv6 with
        | some (.IPv4 ip), _ => (env.LookupHost (env.IPString ip.SrcIP)).addrs
        | none, some (.IPv6 ip) => (env.LookupHost (env.IPString ip.SrcIP)).addrs
        | _, _ => none) ∧
      r.DstHost = (match pkt.Layer .IPv4, pkt.Layer .IPv6 with
        | some (.IPv4 ip), _ => (env.LookupHost (env.IPString ip.DstIP)).addrs
        | none, some (.IPv6 ip) => (env.LookupHost (env.IPString ip.DstIP)).addrs
        | _, _ => none) ∧
      r.Payload = (match pkt.ApplicationLayer with
        | some a => a.Payload
        | none => []) := by
  have k4 : ∀ l, pkt.Layer .IPv4 = some l → ∃ ip, l = .IPv4 ip :=
    fun l h => Layer.eq_IPv4 (Packet.Layer_some h).2
  have k6 : ∀ l, pkt.Layer .IPv6 = some l → ∃ ip, l = .IPv6 ip :=
    fun l h => Layer.eq_IPv6 (Packet.Layer_some h).2
  rcases hE : pkt.Layer .Ethernet with _ | lE <;>
  rcases hT : pkt.Layer .TCP with _ | lT <;>
  rcases hU : pkt.Layer .UDP with _ | lU <;>
  rcases hA : pkt.ApplicationLayer with _ | a <;>
  rcases h4 : pkt.Layer .IPv4 with _ | l4 <;>
  rcases h6 : pkt.Layer .IPv6 with _ | l6
  all_goals first
    | obtain ⟨ip4, rfl⟩ := k4 _ h4
    | obtain ⟨ip6, rfl⟩ := k6 _ h6
    | skip
  all_goals
    simp only [GetPacketInfo, hE, hT, hU, hA, h4, h6, deref, bind, Except.bind, pure, Except.pure,
      Layer.assertIPv4, Layer.assertIPv6]
    exact ⟨_, rfl, rfl, rfl, rfl, rfl, rfl, rfl, rfl, rfl⟩

/-! ## `GetPacketInfo` -/

/-- C1 as stated fails: the VXLAN sample contains an IPv6 layer and a UDP
layer, and the record has neither field set. -/
theorem GetPacketInfo_vxlan_drops_layers :
    sample.vxlanPacket.hasLayer .IPv6 ∧ sample.vxlanPacket.hasLayer .UDP ∧
    GetPacketInfo sample.env sample.vxlanPacket = .ok
      ({ Eth := some sample.eth4,
         IPv4 := some { sample.ip4 with Protocol := layers.IPProtocolUDP },
         IPv6 := none,
         TCP := some sample.tcp,
         UDP := none,
         SrcHost := some ["10.0.0.1"],
         DstHost := some ["10.0.0.2"],
         Payload := [] }, [Effect.lookupHost "10.0.0.1", Effect.lookupHost "10.0.0.2"]) :=
  ⟨by decide, by decide, rfl⟩

/-- C1 (amended): the call returns a record whose Eth, IPv4 and TCP fields are
set exactly when the packet has a layer of that type, whose IPv6 field is set
exactly when the packet has an IPv6 layer and no IPv4 layer, whose UDP field
is set exactly when the packet has a UDP layer and no TCP layer; a field that
is set holds the first layer of its type of the packet. -/
theorem GetPacketInfo_populates (env : Env) (pkt : gopacket.Packet) :
    ∃ r out, GetPacketInfo env pkt = .ok (r, out) ∧
      (r.Eth.isSome ↔ pkt.hasLayer .Ethernet) ∧
      (r.IPv4.isSome ↔ pkt.hasLayer .IPv4) ∧
      (r.IPv6.isSome ↔ pkt.hasLayer .IPv6 ∧ ¬ pkt.hasLayer .IPv4) ∧
      (r.TCP.isSome ↔ pkt.hasLayer .TCP) ∧
      (r.UDP.isSome ↔ pkt.hasLayer .UDP ∧ ¬ pkt.hasLayer .TCP) ∧
      (∀ l, r.Eth = some l → pkt.Layer .Ethernet = some (.Ethernet l) ∧ .Ethernet l ∈ pkt.layers) ∧
      (∀ l, r.IPv4 = some l → pkt.Layer .IPv4 = some (.IPv4 l) ∧ .IPv4 l ∈ pkt.layers) ∧
      (∀ l, r.IPv6 = some l → pkt.Layer .IPv6 = some (.IPv6 l) ∧ .IPv6 l ∈ pkt.layers) ∧
      (∀ l, r.TCP = some l → pkt.Layer .TCP = some (.TCP l) ∧ .TCP l ∈ pkt.layers) ∧
      (∀ l, r.UDP = some l → pkt.Layer .UDP = some (.UDP l) ∧ .UDP l ∈ pkt.layers) := by
  obtain ⟨r, h, hE, h4, h6, hT, hU, -, -, -⟩ := GetPacketInfo_fields env pkt
  have mem : ∀ (t : LayerType) (l : gopacket.Layer), pkt.Layer t = some l →
      pkt.Layer t = some l ∧ l ∈ pkt.layers := fun t l hl => ⟨hl, (Packet.Layer_some hl).1⟩
  refine ⟨r, _, h, ?_, ?_, ?_, ?_, ?_, ?_, ?_, ?_, ?_, ?_⟩
  · rw [hE]; exact (Packet.assertEthernet_Layer pkt).1
  · rw [h4]; exact (Packet.assertIPv4_Layer pkt).1
  · rw [h6, ← (Packet.assertIPv6_Layer pkt).1, ← Packet.Layer_isSome (t := .IPv4)]
    cases pkt.Layer .IPv4 <;> simp
  · rw [hT]; exact (Packet.assertTCP_Layer pkt).1
  · rw [hU, ← (Packet.assertUDP_Layer pkt).1, ← Packet.Layer_isSome (t := .TCP)]
    cases pkt.Layer .TCP <;> simp
  · intro l hl
    rw [hE] at hl
    exact mem _ _ (((Packet.assertEthernet_Layer pkt).2 l).1 hl)
  · intro l hl
    rw [h4] at hl
    exact mem _ _ (((Packet.assertIPv4_Layer pkt).2 l).1 hl)
  · intro l hl
    rw [h6] at hl
    split at hl
    · exact absurd hl (by simp)
    · exact mem _ _ (((Packet.assertIPv6_Layer pkt).2 l).1 hl)
  · intro l hl
    rw [hT] at hl
    exact mem _ _ (((Packet.assertTCP_Layer pkt).2 l).1 hl)
  · intro l hl
    rw [hU] at hl
    split at hl
    · exact absurd hl (by simp)
    · exact mem _ _ (((Packet.assertUDP_Layer pkt).2 l).1 hl)

/-- C2: the record returned for any packet has at most one of IPv4 and IPv6
set and at most one of TCP and UDP set. -/
theorem GetPacketInfo_exclusive (env : Env) (pkt : gopacket.Packet) :
    ∃ r out, GetPacketInfo env pkt = .ok (r, out) ∧
      (r.IPv4 = none ∨ r.IPv6 = none) ∧ (r.TCP = none ∨ r.UDP = none) := by
  obtain ⟨r, h, -, h4, h6, hT, hU, -, -, -⟩ := GetPacketInfo_fields env pkt
  refine ⟨r, _, h, ?_, ?_⟩
  · rw [h4, h6]
    cases pkt.Layer .IPv4 <;> simp
  · rw [hT, hU]
    cases pkt.Layer .TCP <;> simp

/-- C3: a layer the packet lacks leaves its field unset; without an IPv4 and
an IPv6 layer both host fields are unset; without an application layer the
payload is empty; a packet with none of them gives the record of `NewPacket`. -/
theorem GetPacketInfo_absent (env : Env) (pkt : gopacket.Packet) :
    ∃ r out, GetPacketInfo env pkt = .ok (r, out) ∧
      (¬ pkt.hasLayer .Ethernet → r.Eth = none) ∧
      (¬ pkt.hasLayer .IPv4 → r.IPv4 = none) ∧
      (¬ pkt.hasLayer .IPv6 → r.IPv6 = none) ∧
      (¬ pkt.hasLayer .TCP → r.TCP = none) ∧
      (¬ pkt.hasLayer .UDP → r.UDP = none) ∧
      (¬ pkt.hasLayer .IPv4 → ¬ pkt.hasLayer .IPv6 → r.SrcHost = none ∧ r.DstHost = none) ∧
      (pkt.ApplicationLayer = none → r.Payload = []) ∧
      (¬ pkt.hasLayer .Ethernet → ¬ pkt.hasLayer .IPv4 → ¬ pkt.hasLayer .IPv6 →
        ¬ pkt.hasLayer .TCP → ¬ pkt.hasLayer .UDP → pkt.ApplicationLayer = none →
        r = NewPacket) := by
  obtain ⟨r, h, hE, h4, h6, hT, hU, hS, hD, hP⟩ := GetPacketInfo_fields env pkt
  simp only [← Packet.Layer_eq_none]
  refine ⟨r, _, h, ?_, ?_, ?_, ?_, ?_, ?_, ?_, ?_⟩
  · intro k; rw [hE, k]; rfl
  · intro k; rw [h4, k]; rfl
  · intro k; rw [h6, k]; simp
  · intro k; rw [hT, k]; rfl
  · intro k; rw [hU, k]; simp
  · intro k4 k6; rw [hS, hD, k4, k6]; exact ⟨rfl, rfl⟩
  · intro k; rw [hP, k]
  · intro kE k4 k6 kT kU kA
    rw [kE] at hE
    rw [k4] at h4 h6 hS hD
    rw [k6] at h6 hS hD
    rw [kT] at hT hU
    rw [kU] at hU
    rw [kA] at hP
    cases r
    simp_all [NewPacket]

/-- C5: two packets whose accessors return the same Ethernet, IPv4, IPv6, TCP,
UDP and application layers give the same record and the same calls of the
resolver, whatever their error layers; an error layer only adds its message
after these calls. -/
theorem GetPacketInfo_ignores_ErrorLayer (env : Env) (a b : gopacket.Packet)
    (hE : a.Layer .Ethernet = b.Layer .Ethernet)
    (h4 : a.Layer .IPv4 = b.Layer .IPv4)
    (h6 : a.Layer .IPv6 = b.Layer .IPv6)
    (hT : a.Layer .TCP = b.Layer .TCP)
    (hU : a.Layer .UDP = b.Layer .UDP)
    (hA : a.ApplicationLayer = b.ApplicationLayer) :
    ∃ r calls,
      (∀ e ∈ calls, ∃ host, e = Effect.lookupHost host) ∧
      GetPacketInfo env a = .ok (r, calls ++ match a.ErrorLayer with
        | some err =>
          [Effect.fmtPrintln
            ("Error decoding some part of the packet: " ++ env.ErrorLayerString err)]
        | none => []) ∧
      GetPacketInfo env b = .ok (r, calls ++ match b.ErrorLayer with
        | some err =>
          [Effect.fmtPrintln
            ("Error decoding some part of the packet: " ++ env.ErrorLayerString err)]
        | none => []) := by
  obtain ⟨ra, ha, aE, a4, a6, aT, aU, aS, aD, aP⟩ := GetPacketInfo_fields env a
  obtain ⟨rb, hb, bE, b4, b6, bT, bU, bS, bD, bP⟩ := GetPacketInfo_fields env b
  have hr : ra = rb := by
    rw [hE] at aE
    rw [h4] at a4 a6 aS aD
    rw [h6] at a6 aS aD
    rw [hT] at aT aU
    rw [hU] at aU
    rw [hA] at aP
    rw [← bE] at aE
    rw [← b4] at a4
    rw [← b6] at a6
    rw [← bT] at aT
    rw [← bU] at aU
    rw [← bS] at aS
    rw [← bD] at aD
    rw [← bP] at aP
    cases ra
    cases rb
    simp_all
  subst hr
  rw [h4, h6] at ha
  refine ⟨ra, _, ?_, ha, hb⟩
  intro e he
  split at he <;> simp at he
  · rcases he with rfl | rfl <;> exact ⟨_, rfl⟩
  · rcases he with rfl | rfl <;> exact ⟨_, rfl⟩

/-- The witness of C5: the sample segment, decoded in full and with a decode
failure after the TCP header. -/
theorem GetPacketInfo_ignores_ErrorLayer_witness :
    ∃ r calls,
      (∀ e ∈ calls, ∃ host, e = Effect.lookupHost host) ∧
      GetPacketInfo sample.env sample.tcp4Packet = .ok (r, calls ++ []) ∧
      GetPacketInfo sample.env sample.brokenPacket = .ok (r, calls ++
        [Effect.fmtPrintln "Error decoding some part of the packet: truncated"]) :=
  GetPacketInfo_ignores_ErrorLayer sample.env sample.tcp4Packet sample.brokenPacket
    (by decide) (by decide) (by decide) (by decide) (by decide) (by decide)

/-- C10 as stated fails: the code stores the addresses a lookup returns and
drops its error, so with a resolver that returns an address together with an
error both lookups fail and both host fields are set. -/
theorem GetPacketInfo_failed_lookup_sets_host :
    (sample.leakyEnv.LookupHost (sample.leakyEnv.IPString sample.ip4.SrcIP)).err ≠ none ∧
    (sample.leakyEnv.LookupHost (sample.leakyEnv.IPString sample.ip4.DstIP)).err ≠ none ∧
    sample.tcp4Packet.Layer .IPv4 = some (.IPv4 sample.ip4) ∧
    ∃ r out, GetPacketInfo sample.leakyEnv sample.tcp4Packet = .ok (r, out) ∧
      r.SrcHost = some ["10.0.0.1"] ∧ r.DstHost = some ["10.0.0.2"] :=
  ⟨by decide, by decide, rfl, _, _, rfl, rfl, rfl⟩

/-- C10 (amended): with an IPv4 layer the record has IPv4 set to the first such
layer, IPv6 unset and the host fields equal to the addresses the lookups of
that layer's source and destination return, which are the only two calls of
the resolver; an IPv6 layer is looked up only without an IPv4 layer; with a
TCP layer the record has TCP set to the first such layer and UDP unset; the
error of a lookup is dropped, so a host field is unset exactly when its lookup
returns no addresses, the record is the same for a resolver that returns the
same addresses with other errors, and no other field depends on the resolver. -/
theorem GetPacketInfo_precedence (env : Env) (pkt : gopacket.Packet) :
    ∃ r out, GetPacketInfo env pkt = .ok (r, out) ∧
      (pkt.hasLayer .IPv4 → ∃ ip, pkt.Layer .IPv4 = some (.IPv4 ip) ∧
        r.IPv4 = some ip ∧ r.IPv6 = none ∧
        r.SrcHost = (env.LookupHost (env.IPString ip.SrcIP)).addrs ∧
        r.DstHost = (env.LookupHost (env.IPString ip.DstIP)).addrs ∧
        (r.SrcHost = none ↔ (env.LookupHost (env.IPString ip.SrcIP)).addrs = none) ∧
        (r.DstHost = none ↔ (env.LookupHost (env.IPString ip.DstIP)).addrs = none) ∧
        out.filter (fun e => e matches .lookupHost _) =
          [Effect.lookupHost (env.IPString ip.SrcIP),
            Effect.lookupHost (env.IPString ip.DstIP)]) ∧
      (¬ pkt.hasLayer .IPv4 → pkt.hasLayer .IPv6 → ∃ ip, pkt.Layer .IPv6 = some (.IPv6 ip) ∧
        r.IPv4 = none ∧ r.IPv6 = some ip ∧
        r.SrcHost = (env.LookupHost (env.IPString ip.SrcIP)).addrs ∧
        r.DstHost = (env.LookupHost (env.IPString ip.DstIP)).addrs ∧
        (r.SrcHost = none ↔ (env.LookupHost (env.IPString ip.SrcIP)).addrs = none) ∧
        (r.DstHost = none ↔ (env.LookupHost (env.IPString ip.DstIP)).addrs = none) ∧
        out.filter (fun e => e matches .lookupHost _) =
          [Effect.lookupHost (env.IPString ip.SrcIP),
            Effect.lookupHost (env.IPString ip.DstIP)]) ∧
      (pkt.hasLayer .TCP → ∃ t, pkt.Layer .TCP = some (.TCP t) ∧
        r.TCP = some t ∧ r.UDP = none) ∧
      (∀ env2 : Env, env2.IPString = env.IPString →
        (∀ host, (env2.LookupHost host).addrs = (env.LookupHost host).addrs) →
        ∃ out2, GetPacketInfo env2 pkt = .ok (r, out2)) ∧
      (∀ env2 : Env, ∃ r2 out2, GetPacketInfo env2 pkt = .ok (r2, out2) ∧
        r2.Eth = r.Eth ∧ r2.IPv4 = r.IPv4 ∧ r2.IPv6 = r.IPv6 ∧ r2.TCP = r.TCP ∧
        r2.UDP = r.UDP ∧ r2.Payload = r.Payload) := by
  obtain ⟨r, h, hE, h4, h6, hT, hU, hS, hD, hP⟩ := GetPacketInfo_fields env pkt
  simp only [← Packet.Layer_isSome]
  refine ⟨r, _, h, ?_, ?_, ?_, ?_, ?_⟩
  · intro k
    rcases k4 : pkt.Layer .IPv4 with _ | l
    · simp [k4] at k
    · obtain ⟨ip, rfl⟩ := Layer.eq_IPv4 (Packet.Layer_some k4).2
      rw [k4] at h4 h6 hS hD
      have eS : r.SrcHost = (env.LookupHost (env.IPString ip.SrcIP)).addrs := hS
      have eD : r.DstHost = (env.LookupHost (env.IPString ip.DstIP)).addrs := hD
      refine ⟨ip, rfl, h4, h6, eS, eD, by rw [eS], by rw [eD], ?_⟩
      cases pkt.ErrorLayer <;> simp
  · intro n4 k
    rcases k4 : pkt.Layer .IPv4 with _ | l
    · rcases k6 : pkt.Layer .IPv6 with _ | l
      · simp [k6] at k
      · obtain ⟨ip, rfl⟩ := Layer.eq_IPv6 (Packet.Layer_some k6).2
        rw [k4] at h4 h6 hS hD
        rw [k6] at h6 hS hD
        have eS : r.SrcHost = (env.LookupHost (env.IPString ip.SrcIP)).addrs := hS
        have eD : r.DstHost = (env.LookupHost (env.IPString ip.DstIP)).addrs := hD
        refine ⟨ip, rfl, h4, h6, eS, eD, by rw [eS], by rw [eD], ?_⟩
        cases pkt.ErrorLayer <;> simp
    · simp [k4] at n4
  · intro k
    rcases kT : pkt.Layer .TCP with _ | l
    · simp [kT] at k
    · obtain ⟨t, rfl⟩ := Layer.eq_TCP (Packet.Layer_some kT).2
      rw [kT] at hT hU
      exact ⟨t, rfl, hT, hU⟩
  · intro env2 hI hL
    obtain ⟨r2, g, gE, g4, g6, gT, gU, gS, gD, gP⟩ := GetPacketInfo_fields env2 pkt
    have e : r2 = r := by
      simp only [hI, hL] at gS gD
      rw [← hE] at gE
      rw [← h4] at g4
      rw [← h6] at g6
      rw [← hT] at gT
      rw [← hU] at gU
      rw [← hS] at gS
      rw [← hD] at gD
      rw [← hP] at gP
      cases r
      cases r2
      simp_all
    exact ⟨_, e ▸ g⟩
  · intro env2
    obtain ⟨r2, g, gE, g4, g6, gT, gU, -, -, gP⟩ := GetPacketInfo_fields env2 pkt
    exact ⟨r2, _, g, gE.trans hE.symm, g4.trans h4.symm, g6.trans h6.symm, gT.trans hT.symm,
      gU.trans hU.symm, gP.trans hP.symm⟩

/-- The witness of C10: the tunnelled packet has an IPv4 and an IPv6 layer, and
the resolver fails on every name with no addresses; the record holds the IPv4
header, no IPv6 header and no host names, and the two calls of the resolver
are those for the addresses of the IPv4 header. -/
theorem GetPacketInfo_precedence_witness :
    sample.tunnelPacket.hasLayer .IPv4 ∧ sample.tunnelPacket.hasLayer .IPv6 ∧
    (sample.failingEnv.LookupHost "10.0.0.1").err ≠ none ∧
    (sample.failingEnv.LookupHost "10.0.0.2").err ≠ none ∧
    ∃ r out, GetPacketInfo sample.failingEnv sample.tunnelPacket = .ok (r, out) ∧
      r.IPv4 = some { sample.ip4 with Protocol := 41 } ∧ r.IPv6 = none ∧
      r.SrcHost = none ∧ r.DstHost = none ∧
      out.filter (fun e => e matches .lookupHost _) =
        [Effect.lookupHost "10.0.0.1", Effect.lookupHost "10.0.0.2"] := by
  refine ⟨by decide, by decide, by decide, by decide, ?_⟩
  obtain ⟨r, out, h, h4, -⟩ := GetPacketInfo_precedence sample.failingEnv sample.tunnelPacket
  obtain ⟨ip, e, k4, k6, kS, kD, -, -, kc⟩ := h4 (by decide)
  have e2 : ip = { sample.ip4 with Protocol := 41 } := by
    have : sample.tunnelPacket.Layer .IPv4 = some (.IPv4 { sample.ip4 with Protocol := 41 }) := rfl
    rw [this] at e
    simpa using e.symm
  subst e2
  exact ⟨r, out, h, k4, k6, kS, kD, kc⟩

/-- C8: on a record with Eth and IPv4 set, `PrintPretty` gives the output of
`PrintIPv4` for Ethernet type IPv4, the line IPV6 and then the output of
`PrintIPv4` for type IPv6, only ARP for type ARP and only unknown for any other
type; `PrintIPv4` logs one line with the two addresses, the protocol and the
length of the payload when the protocol is TCP or UDP, and nothing otherwise. -/
theorem PrintPretty_dispatch (env : Env) (p : Packet) (eth : layers.Ethernet)
    (ipv4 : layers.IPv4) (hE : p.Eth = some eth) (h4 : p.IPv4 = some ipv4) :
    (eth.EthernetType = layers.EthernetTypeIPv4 → p.PrintPretty env = p.PrintIPv4 env) ∧
    (eth.EthernetType = layers.EthernetTypeIPv6 → p.PrintPretty env =
      { out := Effect.println "IPV6" :: (p.PrintIPv4 env).out, panic := (p.PrintIPv4 env).panic }) ∧
    (eth.EthernetType = layers.EthernetTypeARP → p.PrintPretty env =
      { out := [Effect.println "ARP"], panic := none }) ∧
    (eth.EthernetType ≠ layers.EthernetTypeIPv4 → eth.EthernetType ≠ layers.EthernetTypeIPv6 →
      eth.EthernetType ≠ layers.EthernetTypeARP → p.PrintPretty env =
      { out := [Effect.println "unknown"], panic := none }) ∧
    (ipv4.Protocol = layers.IPProtocolTCP ∨ ipv4.Protocol = layers.IPProtocolUDP →
      p.PrintIPv4 env =
      { out := [Effect.logPrintf ("IP " ++ env.IPString ipv4.SrcIP ++ " > " ++
          env.IPString ipv4.DstIP ++ " , " ++ env.IPProtocolString ipv4.Protocol ++
          " length: " ++ toString p.Payload.length ++ "\n")],
        panic := none }) ∧
    (ipv4.Protocol ≠ layers.IPProtocolTCP → ipv4.Protocol ≠ layers.IPProtocolUDP →
      p.PrintIPv4 env = { out := [], panic := none }) := by
  refine ⟨?_, ?_, ?_, ?_, ?_, ?_⟩
  · intro k
    simp [Packet.PrintPretty, hE, deref, k]
  · intro k
    have n : ¬ layers.EthernetTypeIPv6 = layers.EthernetTypeIPv4 := by decide
    simp [Packet.PrintPretty, hE, deref, k, n]
  · intro k
    have n1 : ¬ layers.EthernetTypeARP = layers.EthernetTypeIPv4 := by decide
    have n2 : ¬ layers.EthernetTypeARP = layers.EthernetTypeIPv6 := by decide
    simp [Packet.PrintPretty, hE, deref, k, n1, n2]
  · intro k1 k2 k3
    simp [Packet.PrintPretty, hE, deref, k1, k2, k3]
  · intro k
    rcases k with k | k
    · simp [Packet.PrintIPv4, h4, deref, k, Packet.ipv4Line]
    · have n : ¬ layers.IPProtocolUDP = layers.IPProtocolTCP := by decide
      simp [Packet.PrintIPv4, h4, deref, k, n, Packet.ipv4Line]
  · intro k1 k2
    simp [Packet.PrintIPv4, h4, deref, k1, k2]

/-- The witness of C8: the record of the sample TCP segment over IPv4. -/
theorem PrintPretty_dispatch_witness :
    GetPacketInfo sample.env sample.tcp4Packet = .ok
      ({ Eth := some sample.eth4, IPv4 := some sample.ip4, TCP := some sample.tcp,
         SrcHost := some ["10.0.0.1"], DstHost := some ["10.0.0.2"],
         Payload := [104, 105, 10] },
        [Effect.lookupHost "10.0.0.1", Effect.lookupHost "10.0.0.2"]) ∧
    ({ Eth := some sample.eth4, IPv4 := some sample.ip4, TCP := some sample.tcp,
       SrcHost := some ["10.0.0.1"], DstHost := some ["10.0.0.2"],
       Payload := [104, 105, 10] } : Packet).PrintPretty sample.env =
      { out := [Effect.logPrintf "IP 10.0.0.1 > 10.0.0.2 , TCP length: 3\n"], panic := none } :=
  ⟨rfl,
    ((PrintPretty_dispatch sample.env
      { Eth := some sample.eth4, IPv4 := some sample.ip4, TCP := some sample.tcp,
        SrcHost := some ["10.0.0.1"], DstHost := some ["10.0.0.2"],
        Payload := [104, 105, 10] } sample.eth4 sample.ip4 rfl rfl).1 rfl).trans
    ((PrintPretty_dispatch sample.env
      { Eth := some sample.eth4, IPv4 := some sample.ip4, TCP := some sample.tcp,
        SrcHost := some ["10.0.0.1"], DstHost := some ["10.0.0.2"],
        Payload := [104, 105, 10] } sample.eth4 sample.ip4 rfl rfl).2.2.2.2.1 (Or.inl rfl))⟩

/-- C9 fails on an ordinary IPv6 segment over Ethernet: its record has Eth set
with type IPv6 and IPv4 unset, and `PrintPretty` writes IPV6 and then panics
in `PrintIPv4` on the nil IPv4 pointer. -/
theorem PrintPretty_IPv6_nil_dereference :
    ∃ r out, GetPacketInfo sample.env sample.tcp6Packet = .ok (r, out) ∧
      r.Eth = some sample.eth6 ∧ sample.eth6.EthernetType = layers.EthernetTypeIPv6 ∧
      r.IPv4 = none ∧ r.IPv6 = some sample.ip6 ∧
      r.PrintPretty sample.env =
        { out := [Effect.println "IPV6"], panic := some .nilDereference } :=
  ⟨_, _, rfl, rfl, rfl, rfl, rfl, rfl⟩

/-! ## The capture loop of `Open` -/

/-- Once `loop` is false the loop runs no further turn. -/
theorem Open.run_stopped (env : Env) (w : Worker) (ts : List Turn) (h : w.loop = false) :
    Packet.Open.run env w ts = w := by
  cases ts <;> simp [Packet.Open.run, h]

/-- The body of the loop never panics. -/
theorem Open.body_panic (env : Env) (w : Worker) (t : Turn) :
    (Packet.Open.body env w t).panic = w.panic := by
  cases t with
  | readError e => rfl
  | packet pkt sel =>
    obtain ⟨r, h, -⟩ := GetPacketInfo_fields env pkt
    cases sel <;> simp [Packet.Open.body, h]

/-- One step of the loop from a state that is in the loop. -/
theorem Open.run_cons (env : Env) (w : Worker) (t : Turn) (ts : List Turn)
    (hl : w.loop = true) (hp : w.panic = none) :
    Packet.Open.run env w (t :: ts) = Packet.Open.run env (Packet.Open.body env w t) ts := by
  have k := Open.body_panic env w t
  rw [hp] at k
  simp [Packet.Open.run, hl, k]

/-- The loop keeps a state without panic so. -/
theorem Open.run_panic (env : Env) (ts : List Turn) :
    ∀ w : Worker, w.panic = none → (Packet.Open.run env w ts).panic = none := by
  induction ts with
  | nil => intro w h; simpa [Packet.Open.run] using h
  | cons t ts ih =>
    intro w h
    cases hl : w.loop
    · rw [Open.run_stopped env w _ hl]; exact h
    · rw [Open.run_cons env w t ts hl h]
      exact ih _ (by rw [Open.body_panic, h])

/-- The loop does not close the channel: that is left to the deferred call. -/
theorem Open.run_cClosed (env : Env) (ts : List Turn) :
    ∀ w : Worker, w.panic = none → (Packet.Open.run env w ts).cClosed = w.cClosed := by
  induction ts with
  | nil => intro w _; simp [Packet.Open.run]
  | cons t ts ih =>
    intro w h
    cases hl : w.loop
    · rw [Open.run_stopped env w _ hl]
    · rw [Open.run_cons env w t ts hl h, ih _ (by rw [Open.body_panic, h])]
      cases t with
      | readError e => rfl
      | packet pkt sel =>
        obtain ⟨r, hr, -⟩ := GetPacketInfo_fields env pkt
        cases sel <;> simp [Packet.Open.body, hr]

/-- The body of the loop does not look at the count of reads. -/
theorem Open.body_agree (env : Env) (a b : Worker) (t : Turn) (h : a.agree b) :
    (Packet.Open.body env a t).agree (Packet.Open.body env b t) := by
  obtain ⟨h1, h2, h3, h4, h5, h6, h7, h8, h9⟩ := h
  cases t with
  | readError e => exact ⟨h1, h2, h3, h4, h5, h6, h7, h8, h9⟩
  | packet pkt sel =>
    obtain ⟨r, h, -⟩ := GetPacketInfo_fields env pkt
    cases sel <;> simp [Packet.Open.body, h, Worker.agree, *]

/-- The loop does not look at the count of reads. -/
theorem Open.run_agree (env : Env) (ts : List Turn) :
    ∀ a b : Worker, a.panic = none → a.agree b →
      (Packet.Open.run env a ts).agree (Packet.Open.run env b ts) := by
  induction ts with
  | nil => intro a b _ h; simpa [Packet.Open.run] using h
  | cons t ts ih =>
    intro a b hp h
    have hpb : b.panic = none := by rw [← h.2.2.2.2.2.2.2.2, hp]
    cases hl : a.loop
    · rw [Open.run_stopped env a _ hl, Open.run_stopped env b _ (by rw [← h.1, hl])]
      exact h
    · rw [Open.run_cons env a t ts hl hp, Open.run_cons env b t ts (by rw [← h.1, hl]) hpb]
      exact ih _ _ (by rw [Open.body_panic, hp]) (Open.body_agree env a b t h)

/-- A failed read put anywhere among the turns changes the state the loop
reaches in the count of reads at most. -/
theorem Open.run_insert (env : Env) (err : String) (pre post : List Turn) :
    ∀ a b : Worker, a.panic = none → a.agree b →
      (Packet.Open.run env a (pre ++ .readError err :: post)).agree
        (Packet.Open.run env b (pre ++ post)) := by
  induction pre with
  | nil =>
    intro a b hp h
    have hpb : b.panic = none := by rw [← h.2.2.2.2.2.2.2.2, hp]
    cases hl : a.loop
    · rw [List.nil_append, List.nil_append, Open.run_stopped env a _ hl,
        Open.run_stopped env b _ (by rw [← h.1, hl])]
      exact h
    · rw [List.nil_append, List.nil_append, Open.run_cons env a _ _ hl hp]
      refine Open.run_agree env post _ _ (by rw [Open.body_panic, hp]) ?_
      obtain ⟨h1, h2, h3, h4, h5, h6, h7, h8, h9⟩ := h
      exact ⟨h1, h2, h3, h4, h5, h6, h7, h8, h9⟩
  | cons t pre ih =>
    intro a b hp h
    have hpb : b.panic = none := by rw [← h.2.2.2.2.2.2.2.2, hp]
    cases hl : a.loop
    · rw [Open.run_stopped env a _ hl, Open.run_stopped env b _ (by rw [← h.1, hl])]
      exact h
    · rw [List.cons_append, List.cons_append, Open.run_cons env a t _ hl hp,
        Open.run_cons env b t _ (by rw [← h.1, hl]) hpb]
      exact ih _ _ (by rw [Open.body_panic, hp]) (Open.body_agree env a b t h)

/-- Leaving the loop, or staying in it, does not look at the count of reads. -/
theorem Open.finish_agree (a b : Worker) (h : a.agree b) :
    Worker.agree
      (if a.loop && a.panic.isNone then a
        else { a with cClosed := true, sClosed := true, handleClosed := true })
      (if b.loop && b.panic.isNone then b
        else { b with cClosed := true, sClosed := true, handleClosed := true }) := by
  obtain ⟨h1, h2, h3, h4, h5, h6, h7, h8, h9⟩ := h
  have e : (b.loop && b.panic.isNone) = (a.loop && a.panic.isNone) := by rw [h1, h9]
  rw [e]
  split
  · exact ⟨h1, h2, h3, h4, h5, h6, h7, h8, h9⟩
  · exact ⟨h1, h2, rfl, rfl, rfl, h6, h7, h8, h9⟩

/-- C4: a turn whose read fails sends nothing, keeps the flag `loop`, prints
nothing and only counts the read; from a state in the loop the next turn is
then run; and a failed read put anywhere among the turns changes neither the
records sent nor the flag, the closing of the channel or what was printed. -/
theorem Open_read_error_skipped (p : Packet) (env : Env) (w : Worker) (err : String)
    (pre post : List Turn) :
    Packet.Open.body env w (.readError err) = { w with reads := w.reads + 1 } ∧
    (Packet.Open.body env w (.readError err)).c = w.c ∧
    (Packet.Open.body env w (.readError err)).loop = w.loop ∧
    (w.loop = true → w.panic = none →
      Packet.Open.run env w (.readError err :: post) =
        Packet.Open.run env { w with reads := w.reads + 1 } post) ∧
    (p.Open env none none (pre ++ .readError err :: post)).c =
      (p.Open env none none (pre ++ post)).c ∧
    (p.Open env none none (pre ++ .readError err :: post)).agree
      (p.Open env none none (pre ++ post)) := by
  have key : (p.Open env none none (pre ++ .readError err :: post)).agree
      (p.Open env none none (pre ++ post)) :=
    Open.finish_agree _ _
      (Open.run_insert env err pre post {} {} rfl ⟨rfl, rfl, rfl, rfl, rfl, rfl, rfl, rfl, rfl⟩)
  refine ⟨rfl, rfl, rfl, ?_, key.2.1, key⟩
  intro hl hp
  exact Open.run_cons env w _ post hl hp

/-- The packets returned before the first turn that takes the signal start the
packets returned over all the turns. -/
theorem Open.readPackets_takeWhile (ts : List Turn) :
    Packet.Open.readPackets (ts.takeWhile fun t => !t.takesSignal) <+:
      Packet.Open.readPackets ts := by
  induction ts with
  | nil => exact ⟨[], rfl⟩
  | cons t ts ih =>
    cases t with
    | readError e => simpa [Turn.takesSignal, Packet.Open.readPackets] using ih
    | packet pkt sel =>
      cases sel with
      | signal => exact ⟨_, List.nil_append _⟩
      | send => simpa [Turn.takesSignal, Packet.Open.readPackets] using ih

/-- The records sent by the loop from a state in the loop: those the state
had, then one record for each packet returned before the first turn that takes
the signal, in order, each the record of its packet; the flag is still true
exactly when no turn takes the signal. -/
theorem Open.run_sent (env : Env) (ts : List Turn) :
    ∀ w : Worker, w.panic = none → w.loop = true →
      ∃ rs, (Packet.Open.run env w ts).c = w.c ++ rs ∧
        List.Forall₂ (fun pkt r => ∃ out, GetPacketInfo env pkt = .ok (r, out))
          (Packet.Open.readPackets (ts.takeWhile fun t => !t.takesSignal)) rs ∧
        ((∀ t ∈ ts, t.takesSignal = false) → (Packet.Open.run env w ts).loop = true) := by
  induction ts with
  | nil =>
    intro w _ hl
    exact ⟨[], by simp [Packet.Open.run], List.Forall₂.nil, fun _ => hl⟩
  | cons t ts ih =>
    intro w hp hl
    rw [Open.run_cons env w t ts hl hp]
    cases t with
    | readError e =>
      obtain ⟨rs, h2, h3, h4⟩ := ih (Packet.Open.body env w (.readError e)) hp hl
      refine ⟨rs, h2, by simpa [Turn.takesSignal] using h3, ?_⟩
      intro k
      exact h4 fun t ht => k t (List.mem_cons_of_mem _ ht)
    | packet pkt sel =>
      obtain ⟨r, h, -⟩ := GetPacketInfo_fields env pkt
      cases sel with
      | signal =>
        rw [Open.run_stopped env _ ts (by simp [Packet.Open.body, h])]
        refine ⟨[], by simp [Packet.Open.body, h], by
          simp [Turn.takesSignal, Packet.Open.readPackets], ?_⟩
        intro k
        have := k _ (List.mem_cons_self _ _)
        simp [Turn.takesSignal] at this
      | send =>
        obtain ⟨rs, h2, h3, h4⟩ := ih (Packet.Open.body env w (.packet pkt .send))
          (by rw [Open.body_panic, hp]) (by simpa [Packet.Open.body, h] using hl)
        refine ⟨r :: rs, ?_, ?_, ?_⟩
        · rw [h2]
          simp [Packet.Open.body, h]
        · simpa [Turn.takesSignal, Packet.Open.readPackets] using
            List.Forall₂.cons (R := fun pkt r => ∃ out, GetPacketInfo env pkt = .ok (r, out))
              ⟨_, h⟩ h3
        · intro k
          exact h4 fun t ht => k t (List.mem_cons_of_mem _ ht)

/-- After a turn that takes the signal the loop has stopped: the flag is false,
and the state is the one that turn left, whatever turns follow. -/
theorem Open.run_signal (env : Env) (pkt : gopacket.Packet) (pre post : List Turn) :
    ∀ w : Worker, w.panic = none →
      (Packet.Open.run env w (pre ++ .packet pkt .signal :: post)).loop = false ∧
      (Packet.Open.run env w (pre ++ .packet pkt .signal :: post)).c =
        (Packet.Open.run env w pre).c ∧
      Packet.Open.run env w (pre ++ .packet pkt .signal :: post) =
        Packet.Open.run env w (pre ++ [.packet pkt .signal]) := by
  induction pre with
  | nil =>
    intro w hp
    cases hl : w.loop
    · simp [Open.run_stopped env w _ hl, hl]
    · obtain ⟨r, h, -⟩ := GetPacketInfo_fields env pkt
      have k : (Packet.Open.body env w (.packet pkt .signal)).loop = false := by
        simp [Packet.Open.body, h]
      rw [List.nil_append, List.nil_append, Open.run_cons env w _ _ hl hp,
        Open.run_cons env w _ _ hl hp, Open.run_stopped env _ post k, Open.run_stopped env _ [] k]
      refine ⟨k, ?_, rfl⟩
      simp [Packet.Open.body, h, Packet.Open.run]
  | cons t pre ih =>
    intro w hp
    cases hl : w.loop
    · simp [Open.run_stopped env w _ hl, hl]
    · rw [List.cons_append, List.cons_append, Open.run_cons env w t _ hl hp,
        Open.run_cons env w t _ hl hp, Open.run_cons env w t _ hl hp]
      exact ih _ (by rw [Open.body_panic, hp])

/-- C6: when the capture is opened, the records sent on the channel are
exactly, in order and one for one, the records `GetPacketInfo` returns for the
packets read before the first turn that takes the signal, and these start the
packets the reads return; after a turn that takes the signal the flag `loop`
is false, the channel is closed, the records sent are those sent before that
turn, and the turns that follow change nothing; while no turn takes the signal
the flag stays true and the channel open. -/
theorem Open_delivers (p : Packet) (env : Env) (turns : List Turn) :
    List.Forall₂ (fun pkt r => ∃ out, GetPacketInfo env pkt = .ok (r, out))
      (Packet.Open.readPackets (turns.takeWhile fun t => !t.takesSignal))
      (p.Open env none none turns).c ∧
    Packet.Open.readPackets (turns.takeWhile fun t => !t.takesSignal) <+:
      Packet.Open.readPackets turns ∧
    (∀ pre pkt post, turns = pre ++ .packet pkt .signal :: post →
      (p.Open env none none turns).loop = false ∧
      (p.Open env none none turns).cClosed = true ∧
      (p.Open env none none turns).c = (p.Open env none none pre).c ∧
      p.Open env none none turns = p.Open env none none (pre ++ [.packet pkt .signal])) ∧
    ((∀ t ∈ turns, t.takesSignal = false) →
      (p.Open env none none turns).loop = true ∧
      (p.Open env none none turns).cClosed = false) := by
  have hc : ∀ ts, (p.Open env none none ts).c = (Packet.Open.run env {} ts).c := by
    intro ts
    simp only [Packet.Open]
    split <;> rfl
  obtain ⟨rs, h2, h3, h4⟩ := Open.run_sent env turns {} rfl rfl
  refine ⟨?_, Open.readPackets_takeWhile turns, ?_, ?_⟩
  · rw [hc, h2]
    exact h3
  · intro pre pkt post e
    subst e
    obtain ⟨h1, h2, h3⟩ := Open.run_signal env pkt pre post {} rfl
    refine ⟨?_, ?_, ?_, ?_⟩
    · simp [Packet.Open, h1]
    · simp [Packet.Open, h1]
    · rw [hc, hc, h2]
    · simp only [Packet.Open]
      rw [h3]
  · intro k
    have hl := h4 k
    have hp : (Packet.Open.run env {} turns).panic = none := by
      exact Open.run_panic env turns {} rfl
    have hcl := Open.run_cClosed env turns {} rfl
    simp [Packet.Open, hl, hp, hcl]

/-- C7: when `pcap.OpenLive` fails, or when it succeeds and `SetBPFFilter`
fails, the worker ends in `log.Fatal` with that error: no packet has been read,
no record sent, and nothing else has happened. -/
theorem Open_fatal (p : Packet) (env : Env) (err : String) (filter : Option String)
    (turns : List Turn) :
    p.Open env (some err) filter turns = { fatal := some err } ∧
    p.Open env none (some err) turns = { fatal := some err } ∧
    (p.Open env (some err) filter turns).reads = 0 ∧
    (p.Open env (some err) filter turns).c = [] ∧
    (p.Open env (some err) filter turns).fatal = some err ∧
    (p.Open env none (some err) turns).reads = 0 ∧
    (p.Open env none (some err) turns).c = [] ∧
    (p.Open env none (some err) turns).fatal = some err :=
  ⟨rfl, rfl, rfl, rfl, rfl, rfl, rfl, rfl⟩

/-- The witness of C3: the sample frame without any of the layers gives the
record of `NewPacket`. -/
theorem GetPacketInfo_absent_witness :
    ∃ out, GetPacketInfo sample.env sample.barePacket = .ok (NewPacket, out) := by
  obtain ⟨r, out, h, -, -, -, -, -, -, -, hall⟩ :=
    GetPacketInfo_absent sample.env sample.barePacket
  have e : r = NewPacket :=
    hall (by decide) (by decide) (by decide) (by decide) (by decide) (by decide)
  exact ⟨out, e ▸ h⟩

/-- The witness of C4: a failed read between two good reads, from the start of
the loop. -/
theorem Open_read_error_skipped_witness :
    Packet.Open.run sample.env {}
        [.readError "timeout", .packet sample.tcp6Packet .send] =
      Packet.Open.run sample.env { reads := 1 } [.packet sample.tcp6Packet .send] ∧
    (NewPacket.Open sample.env none none
        [.packet sample.tcp4Packet .send, .readError "timeout",
          .packet sample.tcp6Packet .send]).c =
      (NewPacket.Open sample.env none none
        [.packet sample.tcp4Packet .send, .packet sample.tcp6Packet .send]).c :=
  have h := Open_read_error_skipped NewPacket sample.env {} "timeout"
    [.packet sample.tcp4Packet .send] [.packet sample.tcp6Packet .send]
  ⟨h.2.2.2.1 rfl rfl, h.2.2.2.2.1⟩

/-- The witness of C6: a failed read, a record sent, the signal taken on the
next packet, then a turn that is never run: exactly the record of the first
packet has been sent, and the channel is closed. -/
theorem Open_delivers_witness :
    (NewPacket.Open sample.env none none
        [.readError "timeout", .packet sample.tcp4Packet .send,
          .packet sample.tcp6Packet .signal, .packet sample.tcp4Packet .send]).c =
      [{ Eth := some sample.eth4, IPv4 := some sample.ip4, TCP := some sample.tcp,
         SrcHost := some ["10.0.0.1"], DstHost := some ["10.0.0.2"],
         Payload := [104, 105, 10] }] ∧
    (NewPacket.Open sample.env none none
        [.readError "timeout", .packet sample.tcp4Packet .send,
          .packet sample.tcp6Packet .signal, .packet sample.tcp4Packet .send]).loop = false ∧
    (NewPacket.Open sample.env none none
        [.readError "timeout", .packet sample.tcp4Packet .send,
          .packet sample.tcp6Packet .signal, .packet sample.tcp4Packet .send]).cClosed = true := by
  have h := Open_delivers NewPacket sample.env
    [.readError "timeout", .packet sample.tcp4Packet .send,
      .packet sample.tcp6Packet .signal, .packet sample.tcp4Packet .send]
  have hs := h.2.2.1 [.readError "timeout", .packet sample.tcp4Packet .send] sample.tcp6Packet
    [.packet sample.tcp4Packet .send] rfl
  refine ⟨?_, hs.1, hs.2.1⟩
  have h1 := h.1
  have e : Packet.Open.readPackets
      (([.readError "timeout", .packet sample.tcp4Packet .send,
        .packet sample.tcp6Packet .signal, .packet sample.tcp4Packet .send] :
        List Turn).takeWhile fun t => !t.takesSignal) = [sample.tcp4Packet] := rfl
  rw [e, List.forall₂_cons_left_iff] at h1
  obtain ⟨r, rs, ⟨out, hr⟩, hnil, hc⟩ := h1
  rw [List.forall₂_nil_left_iff] at hnil
  subst hnil
  rw [hc]
  have k : GetPacketInfo sample.env sample.tcp4Packet = .ok
      ({ Eth := some sample.eth4, IPv4 := some sample.ip4, TCP := some sample.tcp,
         SrcHost := some ["10.0.0.1"], DstHost := some ["10.0.0.2"],
         Payload := [104, 105, 10] },
        [Effect.lookupHost "10.0.0.1", Effect.lookupHost "10.0.0.2"]) := rfl
  rw [k] at hr
  injection hr with hr
  injection hr with hr _
  rw [hr]

end packet
